import Mathlib

/-!
# Turbodesigner mean-line core: a model of the specified design engine

The repository ships only packaging, documentation and notebook scaffolding;
its aerodynamic core (`ThermodynamicState`, `StageSolver`,
`TurbomachinerySequencer`, `AirfoilProfile`) is described by the design
specification. The definitions below model that core from the
specification over the real numbers, and the theorems settle the
specified properties against the model.
-/

open scoped Classical

noncomputable section

namespace Turbodesigner

/-- Modelled from the spec: ideal-gas properties (gas constant `R` and
specific-heat ratio `γ`) carried by every `ThermodynamicState`. -/
structure GasProps where
  R : ℝ
  gamma : ℝ

/-- Modelled from the spec: specific heat at constant pressure of the
ideal gas, `cp = γ·R/(γ-1)`. -/
def GasProps.cp (g : GasProps) : ℝ := g.gamma * g.R / (g.gamma - 1)

/-- Modelled from the spec: the isentropic pressure exponent `γ/(γ-1)` of
the ideal-gas relation `p_s/p_t = (T_s/T_t)^(γ/(γ-1))`. -/
def GasProps.isenExp (g : GasProps) : ℝ := g.gamma / (g.gamma - 1)

/-- Modelled from the spec: `InvalidGasStateError` — bad thermodynamic
inputs for that call (nonpositive pressure or temperature, or a negative
density out of the isentropic relation). -/
inductive InvalidGasStateError where
  | nonpositivePressure
  | nonpositiveTemperature
  | negativeDensity
deriving DecidableEq

/-- Modelled from the spec: immutable ideal-gas state value — total and
static pressure and temperature, mass flow rate, gas properties, and the
velocity at which the static split was taken. -/
structure ThermodynamicState where
  totalPressure : ℝ
  totalTemperature : ℝ
  staticPressure : ℝ
  staticTemperature : ℝ
  massFlow : ℝ
  gas : GasProps
  velocity : ℝ

/-- Modelled from the spec: ideal-gas density of the static state,
`ρ = p_s/(R·T_s)`. -/
def ThermodynamicState.density (s : ThermodynamicState) : ℝ :=
  s.staticPressure / (s.gas.R * s.staticTemperature)

/-- Modelled from the spec: Mach number of the state, the velocity
magnitude over the speed of sound `√(γ·R·T_s)`. -/
def ThermodynamicState.machNumber (s : ThermodynamicState) : ℝ :=
  Real.sqrt (s.velocity ^ 2 / (s.gas.gamma * s.gas.R * s.staticTemperature))

/-- Modelled from the spec: the static temperature obtained from the total
temperature at velocity `v`, `T_s = T_t - v²/(2·cp)`. -/
def ThermodynamicState.staticTemperatureAt (s : ThermodynamicState) (v : ℝ) : ℝ :=
  s.totalTemperature - v ^ 2 / (2 * s.gas.cp)

/-- Modelled from the spec: the static pressure from the isentropic
ideal-gas relation at velocity `v`, `p_s = p_t·(T_s/T_t)^(γ/(γ-1))`. -/
def ThermodynamicState.staticPressureAt (s : ThermodynamicState) (v : ℝ) : ℝ :=
  s.totalPressure * (s.staticTemperatureAt v / s.totalTemperature) ^ s.gas.isenExp

/-- Modelled from the spec: `fromTotalConditions(pressure, temperature,
massFlow, gasProps)` — builds a stagnation state (static equal to total,
velocity zero); fails with `InvalidGasStateError` on nonpositive pressure
or temperature or a negative density. -/
def ThermodynamicState.fromTotalConditions (p T mdot : ℝ) (g : GasProps) :
    Except InvalidGasStateError ThermodynamicState :=
  if p ≤ 0 then .error .nonpositivePressure
  else if T ≤ 0 then .error .nonpositiveTemperature
  else if p / (g.R * T) < 0 then .error .negativeDensity
  else .ok ⟨p, T, p, T, mdot, g, 0⟩

/-- Modelled from the spec: `deriveStatic(velocity)` — derives the static
split of the state at the given velocity through the isentropic ideal-gas
relation, producing a new instance; fails with `InvalidGasStateError` when
pressure or the derived static temperature is nonpositive or the relation
yields a negative density. -/
def ThermodynamicState.deriveStatic (s : ThermodynamicState) (v : ℝ) :
    Except InvalidGasStateError ThermodynamicState :=
  if s.totalPressure ≤ 0 then .error .nonpositivePressure
  else if s.staticTemperatureAt v ≤ 0 then .error .nonpositiveTemperature
  else if s.staticPressureAt v / (s.gas.R * s.staticTemperatureAt v) < 0 then
    .error .negativeDensity
  else .ok { s with
    staticPressure := s.staticPressureAt v
    staticTemperature := s.staticTemperatureAt v
    velocity := v }

/-- Modelled from the spec: reconstructing the total conditions (pressure,
temperature) from the static side of a state by inverting the isentropic
relation at the state's velocity. -/
def ThermodynamicState.reconstructTotal (s : ThermodynamicState) : ℝ × ℝ :=
  (s.staticPressure *
      ((s.staticTemperature + s.velocity ^ 2 / (2 * s.gas.cp)) / s.staticTemperature) ^
        s.gas.isenExp,
    s.staticTemperature + s.velocity ^ 2 / (2 * s.gas.cp))

/-- Air-like sample gas used to instantiate the theorems. -/
def sampleAir : GasProps := ⟨287, 7 / 5⟩

/-- Sample inlet stagnation state used to instantiate the theorems. -/
def sampleState : ThermodynamicState :=
  ⟨101325, 288, 101325, 288, 5, sampleAir, 0⟩

/-- C2: applying `deriveStatic` at a velocity and reconstructing the total
conditions from the resulting static state recovers the original total
pressure and total temperature (exactly, hence within any relative
tolerance). -/
theorem deriveStatic_reconstructTotal_roundtrip (s : ThermodynamicState) (v : ℝ)
    (hp : 0 < s.totalPressure) (hT : 0 < s.totalTemperature)
    (hR : 0 < s.gas.R) (hTs : 0 < s.staticTemperatureAt v) :
    ∃ s₂, s.deriveStatic v = .ok s₂ ∧
      s₂.reconstructTotal = (s.totalPressure, s.totalTemperature) := by
  have hbase : 0 < s.staticTemperatureAt v / s.totalTemperature := div_pos hTs hT
  have hps : 0 < s.staticPressureAt v :=
    mul_pos hp (Real.rpow_pos_of_pos hbase _)
  have hden : 0 < s.staticPressureAt v / (s.gas.R * s.staticTemperatureAt v) :=
    div_pos hps (mul_pos hR hTs)
  refine ⟨{ s with
      staticPressure := s.staticPressureAt v
      staticTemperature := s.staticTemperatureAt v
      velocity := v }, ?_, ?_⟩
  · rw [ThermodynamicState.deriveStatic, if_neg (not_le.mpr hp),
      if_neg (not_le.mpr hTs), if_neg (not_lt.mpr hden.le)]
  · have hTt : s.staticTemperatureAt v + v ^ 2 / (2 * s.gas.cp) = s.totalTemperature := by
      rw [ThermodynamicState.staticTemperatureAt]; ring
    rw [ThermodynamicState.reconstructTotal]
    simp only
    rw [hTt]
    refine Prod.ext ?_ rfl
    simp only
    rw [ThermodynamicState.staticPressureAt, mul_assoc,
      ← Real.mul_rpow hbase.le (div_pos hT hTs).le]
    rw [div_mul_div_comm, mul_comm s.totalTemperature (s.staticTemperatureAt v),
      div_self (by positivity), Real.one_rpow, mul_one]

/-- C2 witness: the round-trip at the sample inlet state and a velocity of
100 m/s. -/
theorem deriveStatic_reconstructTotal_roundtrip_witness :
    ∃ s₂, sampleState.deriveStatic 100 = .ok s₂ ∧
      s₂.reconstructTotal = (sampleState.totalPressure, sampleState.totalTemperature) :=
  deriveStatic_reconstructTotal_roundtrip sampleState 100
    (by norm_num [sampleState]) (by norm_num [sampleState])
    (by norm_num [sampleState, sampleAir])
    (by norm_num [sampleState, sampleAir, ThermodynamicState.staticTemperatureAt,
      GasProps.cp])

/-- Modelled from the spec: per-stage design targets — work coefficient,
flow coefficient, reaction, hub/mean/tip radii, shaft angular speed and
the span-station count of the radial table. -/
structure StageDesign where
  workCoefficient : ℝ
  flowCoefficient : ℝ
  reaction : ℝ
  hubRadius : ℝ
  meanRadius : ℝ
  tipRadius : ℝ
  angularSpeed : ℝ
  spanStationCount : ℕ

/-- Modelled from the spec: `StageInfeasibleError` — the design targets
produce an unphysical velocity triangle; recoverable, the caller may adjust
targets and retry that stage. -/
inductive StageInfeasibleError where
  | invalidRadii
  | invalidReaction
  | nonpositiveStaticState
  | supersonicRelativeMach
deriving DecidableEq

/-- Modelled from the spec: per-radial-station velocity triangle — radius,
axial velocity, absolute and relative tangential velocity, blade speed. -/
structure VelocityTriangle where
  radius : ℝ
  axialVelocity : ℝ
  tangentialVelocity : ℝ
  bladeSpeed : ℝ
  relativeTangentialVelocity : ℝ

namespace StageSolver

/-- Modelled from the spec: blade speed at the mean radius, `U = ω·rm`. -/
def bladeSpeed (d : StageDesign) : ℝ := d.angularSpeed * d.meanRadius

/-- Modelled from the spec: mean-station axial velocity from the flow
coefficient, `cx = φ·U`. -/
def meanAxialVelocity (d : StageDesign) : ℝ := d.flowCoefficient * bladeSpeed d

/-- Modelled from the spec: mean-station absolute tangential velocity from
the Euler work equation and the stage coefficients (closed form),
`ct = U·(1 - reaction - ψ/2)`. -/
def meanTangentialVelocity (d : StageDesign) : ℝ :=
  bladeSpeed d * (1 - d.reaction - d.workCoefficient / 2)

/-- Modelled from the spec: the mean-radius velocity triangle solved by the
closed-form Euler relations — all blade calculations happen at this single
mean `rm` station. -/
def meanTriangle (d : StageDesign) : VelocityTriangle :=
  ⟨d.meanRadius, meanAxialVelocity d, meanTangentialVelocity d, bladeSpeed d,
    meanTangentialVelocity d - bladeSpeed d⟩

/-- Modelled from the spec: squared relative flow speed at the mean
station, `w² = cx² + (ct - U)²`. -/
def relativeSpeedSq (d : StageDesign) : ℝ :=
  meanAxialVelocity d ^ 2 + (meanTangentialVelocity d - bladeSpeed d) ^ 2

/-- Modelled from the spec: squared absolute flow speed at the mean
station, `c² = cx² + ct²`. -/
def absoluteSpeedSq (d : StageDesign) : ℝ :=
  meanAxialVelocity d ^ 2 + meanTangentialVelocity d ^ 2

/-- Modelled from the spec: static temperature at the mean station,
`T_s = T_t - c²/(2·cp)`. -/
def meanStaticTemperature (inlet : ThermodynamicState) (d : StageDesign) : ℝ :=
  inlet.totalTemperature - absoluteSpeedSq d / (2 * inlet.gas.cp)

/-- Modelled from the spec: squared speed of sound at the mean station,
`a² = γ·R·T_s`; the relative Mach number is at least one exactly when
`w² ≥ a²` (for positive `a²`). -/
def soundSpeedSq (inlet : ThermodynamicState) (d : StageDesign) : ℝ :=
  inlet.gas.gamma * inlet.gas.R * meanStaticTemperature inlet d

/-- Modelled from the spec: radius of span station `i`, the hub-to-tip
interpolation over `spanStationCount` stations. -/
def stationRadius (d : StageDesign) (i : ℕ) : ℝ :=
  d.hubRadius + (d.tipRadius - d.hubRadius) * ((i : ℝ) / ((d.spanStationCount : ℝ) - 1))

/-- Modelled from the spec: velocity triangle at span station `i` — the
free-vortex law `radius × tangentialVelocity = rm × ct_m` fixes the
tangential velocity, while the axial velocity is held at its mean value. -/
def stationTriangle (d : StageDesign) (i : ℕ) : VelocityTriangle :=
  ⟨stationRadius d i, meanAxialVelocity d,
    d.meanRadius * meanTangentialVelocity d / stationRadius d i,
    d.angularSpeed * stationRadius d i,
    d.meanRadius * meanTangentialVelocity d / stationRadius d i -
      d.angularSpeed * stationRadius d i⟩

/-- Modelled from the spec: the span-ordered radial table of velocity
triangles, hub to tip. -/
def triangles (d : StageDesign) : List VelocityTriangle :=
  (List.range d.spanStationCount).map (stationTriangle d)

/-- Modelled from the spec: outlet total temperature from the Euler work
input, `T_t2 = T_t1 + ψ·U²/cp`. -/
def outletTotalTemperature (inlet : ThermodynamicState) (d : StageDesign) : ℝ :=
  inlet.totalTemperature + d.workCoefficient * bladeSpeed d ^ 2 / inlet.gas.cp

/-- Modelled from the spec: outlet total pressure from the isentropic
relation, `p_t2 = p_t1·(T_t2/T_t1)^(γ/(γ-1))`. -/
def outletTotalPressure (inlet : ThermodynamicState) (d : StageDesign) : ℝ :=
  inlet.totalPressure *
    (outletTotalTemperature inlet d / inlet.totalTemperature) ^ inlet.gas.isenExp

/-- Modelled from the spec: the stage outlet stagnation state handed to the
next stage. -/
def outletState (inlet : ThermodynamicState) (d : StageDesign) : ThermodynamicState :=
  ⟨outletTotalPressure inlet d, outletTotalTemperature inlet d,
    outletTotalPressure inlet d, outletTotalTemperature inlet d,
    inlet.massFlow, inlet.gas, 0⟩

/-- Modelled from the spec: the radii invariant
`0 < hub radius < mean radius < tip radius`. -/
def radiiValid (d : StageDesign) : Prop :=
  0 < d.hubRadius ∧ d.hubRadius < d.meanRadius ∧ d.meanRadius < d.tipRadius

/-- Modelled from the spec: `StageSolver.solve(inlet, design)` — checks the
radii ordering, the reaction envelope `[0,1]` and the relative Mach number
(`w² ≥ a²` stands for Mach ≥ 1), then emits the outlet state and the radial
velocity-triangle table; infeasible targets signal `StageInfeasibleError`,
the input is never clamped. -/
def solve (inlet : ThermodynamicState) (d : StageDesign) :
    Except StageInfeasibleError (ThermodynamicState × List VelocityTriangle) :=
  if radiiValid d then
    if d.reaction < 0 ∨ 1 < d.reaction then .error .invalidReaction
    else if soundSpeedSq inlet d ≤ 0 then .error .nonpositiveStaticState
    else if soundSpeedSq inlet d ≤ relativeSpeedSq d then .error .supersonicRelativeMach
    else .ok (outletState inlet d, triangles d)
  else .error .invalidRadii

/-- Station radii stay at or above the hub radius, hence positive, for any
station index below the station count of a design with valid radii. -/
theorem stationRadius_pos (d : StageDesign) (i : ℕ) (hd : radiiValid d)
    (hn : 1 ≤ d.spanStationCount) : 0 < stationRadius d i := by
  obtain ⟨hhub, hhm, hmt⟩ := hd
  have htip : d.hubRadius < d.tipRadius := hhm.trans hmt
  have hθ : 0 ≤ (i : ℝ) / ((d.spanStationCount : ℝ) - 1) := by
    apply div_nonneg (Nat.cast_nonneg i)
    have : (1 : ℝ) ≤ (d.spanStationCount : ℝ) := by exact_mod_cast hn
    linarith
  have : 0 ≤ (d.tipRadius - d.hubRadius) * ((i : ℝ) / ((d.spanStationCount : ℝ) - 1)) :=
    mul_nonneg (by linarith) hθ
  rw [stationRadius]
  linarith

end StageSolver

/-- Sample stage design used to instantiate the theorems. -/
def sampleDesign : StageDesign :=
  ⟨1 / 2, 1 / 2, 1 / 2, 1 / 10, 3 / 20, 1 / 5, 10, 3⟩

/-- C1: every output of `StageSolver.solve` satisfies the free-vortex
radial law — across the whole returned velocity-triangle table the product
`radius × tangentialVelocity` is the one constant `rm × ct_m` and the axial
velocity is the one mean value (exactly, hence within any relative
tolerance). -/
theorem solve_freeVortex_invariant (inlet : ThermodynamicState) (d : StageDesign)
    (outlet : ThermodynamicState) (tris : List VelocityTriangle)
    (h : StageSolver.solve inlet d = .ok (outlet, tris)) :
    tris.map (fun t => (t.radius * t.tangentialVelocity, t.axialVelocity)) =
      List.replicate tris.length
        (d.meanRadius * StageSolver.meanTangentialVelocity d,
          StageSolver.meanAxialVelocity d) := by
  rw [StageSolver.solve] at h
  split_ifs at h with h1 h2 h3 h4
  have htris : tris = StageSolver.triangles d := by
    injection h with h'
    exact (congrArg Prod.snd h').symm
  subst htris
  have hlen :
      ((StageSolver.triangles d).map
          (fun t => (t.radius * t.tangentialVelocity, t.axialVelocity))).length =
        (StageSolver.triangles d).length := by
    simp
  rw [← hlen, List.eq_replicate_length]
  intro b hb
  simp only [List.mem_map, StageSolver.triangles, List.mem_range] at hb
  obtain ⟨t, ⟨i, hi, hti⟩, hbt⟩ := hb
  subst hbt
  subst hti
  have hr : 0 < StageSolver.stationRadius d i :=
    StageSolver.stationRadius_pos d i h1 (by omega)
  simp only [StageSolver.stationTriangle]
  refine Prod.ext ?_ rfl
  simp only
  field_simp

/-- C1 witness: the free-vortex invariant at the sample inlet state and
sample design. -/
theorem solve_freeVortex_invariant_witness :
    (StageSolver.triangles sampleDesign).map
        (fun t => (t.radius * t.tangentialVelocity, t.axialVelocity)) =
      List.replicate (StageSolver.triangles sampleDesign).length
        (sampleDesign.meanRadius * StageSolver.meanTangentialVelocity sampleDesign,
          StageSolver.meanAxialVelocity sampleDesign) := by
  refine solve_freeVortex_invariant sampleState sampleDesign
    (StageSolver.outletState sampleState sampleDesign)
    (StageSolver.triangles sampleDesign) ?_
  have hradii : StageSolver.radiiValid sampleDesign := by
    simp only [StageSolver.radiiValid]
    norm_num [sampleDesign]
  have hreact : ¬ (sampleDesign.reaction < 0 ∨ 1 < sampleDesign.reaction) := by
    norm_num [sampleDesign]
  have hsound : ¬ (StageSolver.soundSpeedSq sampleState sampleDesign ≤ 0) := by
    norm_num [StageSolver.soundSpeedSq, StageSolver.meanStaticTemperature,
      StageSolver.absoluteSpeedSq, StageSolver.meanAxialVelocity,
      StageSolver.meanTangentialVelocity, StageSolver.bladeSpeed,
      GasProps.cp, sampleDesign, sampleState, sampleAir]
  have hmach : ¬ (StageSolver.soundSpeedSq sampleState sampleDesign ≤
      StageSolver.relativeSpeedSq sampleDesign) := by
    norm_num [StageSolver.soundSpeedSq, StageSolver.meanStaticTemperature,
      StageSolver.absoluteSpeedSq, StageSolver.relativeSpeedSq,
      StageSolver.meanAxialVelocity, StageSolver.meanTangentialVelocity,
      StageSolver.bladeSpeed, GasProps.cp, sampleDesign, sampleState, sampleAir]
  rw [StageSolver.solve, if_pos hradii, if_neg hreact, if_neg hsound, if_neg hmach]

/-- C5: the strict ordering `hub radius < mean radius < tip radius` is
enforced and never silently clamped: an input violating it makes
`StageSolver.solve` signal `StageInfeasibleError.invalidRadii`, and any
successful solve certifies that its input radii were strictly ordered
(with a positive hub radius). -/
theorem solve_radii_ordering (inlet : ThermodynamicState) (d : StageDesign) :
    (¬ (d.hubRadius < d.meanRadius ∧ d.meanRadius < d.tipRadius) →
      StageSolver.solve inlet d = .error .invalidRadii)
  ∧ (∀ out, StageSolver.solve inlet d = .ok out →
      0 < d.hubRadius ∧ d.hubRadius < d.meanRadius ∧ d.meanRadius < d.tipRadius) := by
  constructor
  · intro hv
    have hnr : ¬ StageSolver.radiiValid d := by
      rintro ⟨-, ha, hb⟩
      exact hv ⟨ha, hb⟩
    rw [StageSolver.solve, if_neg hnr]
  · intro out h
    by_cases hr : StageSolver.radiiValid d
    · exact hr
    · rw [StageSolver.solve, if_neg hr] at h
      exact absurd h (by simp)

/-- C6: `StageSolver.solve` signals `StageInfeasibleError` whenever the
stage reaction lies outside `[0,1]` or the resulting relative Mach number
is at least one (equivalently `w² ≥ a²`), instead of returning an invalid
triangle; a successful solve certifies that the reaction was inside the
envelope and the relative flow subsonic. -/
theorem solve_reaction_mach_guard (inlet : ThermodynamicState) (d : StageDesign) :
    ((d.reaction < 0 ∨ 1 < d.reaction) → ∃ e, StageSolver.solve inlet d = .error e)
  ∧ (StageSolver.radiiValid d → ¬ (d.reaction < 0 ∨ 1 < d.reaction) →
      StageSolver.soundSpeedSq inlet d ≤ StageSolver.relativeSpeedSq d →
      ∃ e, StageSolver.solve inlet d = .error e)
  ∧ (∀ out, StageSolver.solve inlet d = .ok out →
      (0 ≤ d.reaction ∧ d.reaction ≤ 1) ∧
        StageSolver.relativeSpeedSq d < StageSolver.soundSpeedSq inlet d) := by
  refine ⟨?_, ?_, ?_⟩
  · intro hv
    by_cases hr : StageSolver.radiiValid d
    · refine ⟨.invalidReaction, ?_⟩
      rw [StageSolver.solve, if_pos hr, if_pos hv]
    · refine ⟨.invalidRadii, ?_⟩
      rw [StageSolver.solve, if_neg hr]
  · intro hr hreact hmach
    by_cases hs : StageSolver.soundSpeedSq inlet d ≤ 0
    · refine ⟨.nonpositiveStaticState, ?_⟩
      rw [StageSolver.solve, if_pos hr, if_neg hreact, if_pos hs]
    · refine ⟨.supersonicRelativeMach, ?_⟩
      rw [StageSolver.solve, if_pos hr, if_neg hreact, if_neg hs, if_pos hmach]
  · intro out h
    rw [StageSolver.solve] at h
    split_ifs at h with h1 h2 h3 h4
    push_neg at h2 h4
    exact ⟨⟨h2.1, h2.2⟩, h4⟩

/-- Modelled from the spec: `ClosureWarning` — the accumulated pressure
ratio drifted from the target; non-fatal, surfaced in the report. -/
structure ClosureWarning where
  accumulated : ℝ
  target : ℝ

/-- Modelled from the spec: one solved stage of the machine — its design,
its resolved radial velocity-triangle table and its outlet state. -/
structure SolvedStage where
  design : StageDesign
  triangles : List VelocityTriangle
  outlet : ThermodynamicState

/-- Modelled from the spec: the `Turbomachinery` result — the ordered
solved stages, the final state, the derived overall pressure ratio, the
closure warning if any, and the index of the first failed stage if the
chain halted early. -/
structure Turbomachinery where
  stages : List SolvedStage
  outletState : ThermodynamicState
  overallPressureRatio : ℝ
  closureWarning : Option ClosureWarning
  failedAtStage : Option ℕ

namespace TurbomachinerySequencer

/-- Modelled from the spec: solve the stages in strict sequence, feeding
each stage's outlet state as the next stage's inlet; a failed stage halts
the chain, recording its index, keeping the stages solved so far. -/
def runStages : List StageDesign → ThermodynamicState → ℕ →
    List SolvedStage × ThermodynamicState × Option ℕ
  | [], inlet, _ => ([], inlet, none)
  | d :: rest, inlet, i =>
    match StageSolver.solve inlet d with
    | .error _ => ([], inlet, some i)
    | .ok (outlet, tris) =>
      ((⟨d, tris, outlet⟩ : SolvedStage) :: (runStages rest outlet (i + 1)).1,
        (runStages rest outlet (i + 1)).2.1,
        (runStages rest outlet (i + 1)).2.2)

/-- Modelled from the spec: the default closure tolerance of 0.1%. -/
def defaultClosureTolerance : ℝ := 1 / 1000

/-- Modelled from the spec: `TurbomachinerySequencer.run(inletState,
orderedStageDesigns)` — chains the stage solves in order, accumulates the
final-to-initial total-pressure ratio and, when the chain completed,
checks it against the target within the tolerance; a mismatch is recorded
as a non-fatal `ClosureWarning`, and the function always returns a
`Turbomachinery`. -/
def run (inlet : ThermodynamicState) (designs : List StageDesign)
    (targetRatio tol : ℝ) : Turbomachinery :=
  { stages := (runStages designs inlet 0).1
    outletState := (runStages designs inlet 0).2.1
    overallPressureRatio :=
      (runStages designs inlet 0).2.1.totalPressure / inlet.totalPressure
    closureWarning :=
      if (runStages designs inlet 0).2.2 = none ∧
          tol * targetRatio <
            |(runStages designs inlet 0).2.1.totalPressure / inlet.totalPressure -
              targetRatio| then
        some ⟨(runStages designs inlet 0).2.1.totalPressure / inlet.totalPressure,
          targetRatio⟩
      else none
    failedAtStage := (runStages designs inlet 0).2.2 }

end TurbomachinerySequencer

/-- C3: the sequencer is deterministic and idempotent — two invocations of
`run` with identical inputs produce identical `Turbomachinery` structures;
the model is a pure function of its arguments, so no hidden mutable or
random state can influence the result. -/
theorem run_deterministic (inlet₁ inlet₂ : ThermodynamicState)
    (designs₁ designs₂ : List StageDesign) (target tol : ℝ)
    (hi : inlet₁ = inlet₂) (hd : designs₁ = designs₂) :
    TurbomachinerySequencer.run inlet₁ designs₁ target tol =
      TurbomachinerySequencer.run inlet₂ designs₂ target tol := by
  rw [hi, hd]

/-- C3 witness: two identical sample invocations agree. -/
theorem run_deterministic_witness :
    TurbomachinerySequencer.run sampleState [sampleDesign] (3 / 2) (1 / 1000) =
      TurbomachinerySequencer.run sampleState [sampleDesign] (3 / 2) (1 / 1000) :=
  run_deterministic sampleState sampleState [sampleDesign] [sampleDesign]
    (3 / 2) (1 / 1000) rfl rfl

/-- C4: the sequencer reports the accumulated final-to-initial
total-pressure ratio; with the default tolerance of 0.1%, a completed
chain carries no `ClosureWarning` exactly when the ratio is within the
tolerance of the target (the mismatch case yields the warning, never a
hard failure — `run` is total); and when the three solved stages multiply
the total pressure by 1.15 each, the reported overall ratio is
`1.15³ = 1.520875`. -/
theorem run_closure_check (inlet : ThermodynamicState) (designs : List StageDesign)
    (target : ℝ) (hp : inlet.totalPressure ≠ 0) :
    TurbomachinerySequencer.defaultClosureTolerance = 1 / 1000
  ∧ (TurbomachinerySequencer.run inlet designs target
        TurbomachinerySequencer.defaultClosureTolerance).overallPressureRatio =
      (TurbomachinerySequencer.run inlet designs target
        TurbomachinerySequencer.defaultClosureTolerance).outletState.totalPressure /
        inlet.totalPressure
  ∧ ((TurbomachinerySequencer.run inlet designs target
        TurbomachinerySequencer.defaultClosureTolerance).failedAtStage = none →
      ((TurbomachinerySequencer.run inlet designs target
          TurbomachinerySequencer.defaultClosureTolerance).closureWarning = none ↔
        |(TurbomachinerySequencer.run inlet designs target
            TurbomachinerySequencer.defaultClosureTolerance).overallPressureRatio -
          target| ≤ (1 / 1000) * target))
  ∧ ((TurbomachinerySequencer.run inlet designs target
        TurbomachinerySequencer.defaultClosureTolerance).outletState.totalPressure =
        (23 / 20) ^ 3 * inlet.totalPressure →
      (TurbomachinerySequencer.run inlet designs target
        TurbomachinerySequencer.defaultClosureTolerance).overallPressureRatio =
        1.520875) := by
  refine ⟨rfl, rfl, ?_, ?_⟩
  · intro hdone
    simp only [TurbomachinerySequencer.run,
      TurbomachinerySequencer.defaultClosureTolerance] at hdone ⊢
    by_cases hlt : (1 / 1000 : ℝ) * target <
        |(TurbomachinerySequencer.runStages designs inlet 0).2.1.totalPressure /
          inlet.totalPressure - target|
    · rw [if_pos ⟨hdone, hlt⟩]
      constructor
      · intro h
        exact absurd h (by simp)
      · intro h
        exact absurd h (not_le.mpr hlt)
    · rw [if_neg (fun hc => hlt hc.2)]
      exact iff_of_true rfl (not_lt.mp hlt)
  · intro hfinal
    simp only [TurbomachinerySequencer.run] at hfinal ⊢
    rw [hfinal]
    rw [mul_div_assoc, div_self hp]
    norm_num

/-- C4 witness: the closure bookkeeping at the sample inlet with no stages
and unit target ratio. -/
theorem run_closure_check_witness :
    TurbomachinerySequencer.defaultClosureTolerance = 1 / 1000
  ∧ (TurbomachinerySequencer.run sampleState [] 1
        TurbomachinerySequencer.defaultClosureTolerance).overallPressureRatio =
      (TurbomachinerySequencer.run sampleState [] 1
        TurbomachinerySequencer.defaultClosureTolerance).outletState.totalPressure /
        sampleState.totalPressure
  ∧ ((TurbomachinerySequencer.run sampleState [] 1
        TurbomachinerySequencer.defaultClosureTolerance).failedAtStage = none →
      ((TurbomachinerySequencer.run sampleState [] 1
          TurbomachinerySequencer.defaultClosureTolerance).closureWarning = none ↔
        |(TurbomachinerySequencer.run sampleState [] 1
            TurbomachinerySequencer.defaultClosureTolerance).overallPressureRatio -
          1| ≤ (1 / 1000) * 1))
  ∧ ((TurbomachinerySequencer.run sampleState [] 1
        TurbomachinerySequencer.defaultClosureTolerance).outletState.totalPressure =
        (23 / 20) ^ 3 * sampleState.totalPressure →
      (TurbomachinerySequencer.run sampleState [] 1
        TurbomachinerySequencer.defaultClosureTolerance).overallPressureRatio =
        1.520875) :=
  run_closure_check sampleState [] 1 (by norm_num [sampleState])

/-- Modelled from the spec: the machine-level design specification — the
global targets from which the per-stage designs are derived, among them the
hub-to-tip ratio that fixes the mean-line radius once, and the per-stage
blade heights of the contracting annulus. -/
structure MachineConfig where
  tipRadius : ℝ
  hubToTipRatio : ℝ
  workCoefficient : ℝ
  flowCoefficient : ℝ
  reaction : ℝ
  angularSpeed : ℝ
  spanStationCount : ℕ
  bladeHeights : List ℝ

/-- Modelled from the spec: the machine's single mean-line radius, fixed
once from the hub-to-tip ratio (arithmetic mean of the inlet hub and tip
radii, `rm = r_tip·(1 + ν)/2`). -/
def machineMeanRadius (cfg : MachineConfig) : ℝ :=
  cfg.tipRadius * (1 + cfg.hubToTipRatio) / 2

/-- Modelled from the spec: per-stage designs derived from the machine
config — each stage's annulus contracts around the one constant mean-line
radius (its blade height shrinks), and every design carries that same
mean radius rather than a per-stage recomputed one. -/
def makeStageDesigns (cfg : MachineConfig) : List StageDesign :=
  cfg.bladeHeights.map fun h =>
    ⟨cfg.workCoefficient, cfg.flowCoefficient, cfg.reaction,
      machineMeanRadius cfg - h / 2, machineMeanRadius cfg,
      machineMeanRadius cfg + h / 2, cfg.angularSpeed, cfg.spanStationCount⟩

/-- Every stage the sequencer records keeps a design drawn from the input
design list. -/
theorem runStages_design_mem (designs : List StageDesign) :
    ∀ inlet i, ∀ s ∈ (TurbomachinerySequencer.runStages designs inlet i).1,
      s.design ∈ designs := by
  induction designs with
  | nil =>
    intro inlet i s hs
    simp [TurbomachinerySequencer.runStages] at hs
  | cons d rest ih =>
    intro inlet i s hs
    rw [TurbomachinerySequencer.runStages] at hs
    rcases hsolve : StageSolver.solve inlet d with e | p
    · rw [hsolve] at hs
      simp at hs
    · rcases p with ⟨outlet, tris⟩
      rw [hsolve] at hs
      simp only [List.mem_cons] at hs
      rcases hs with hs | hs
      · subst hs
        exact List.mem_cons_self d rest
      · exact List.mem_cons_of_mem d (ih outlet (i + 1) s hs)

/-- C10: the mean-line radius is constant along the whole machine — it is
fixed once from the hub-to-tip ratio, every derived stage design carries
that same mean radius, the solver's mean velocity triangle sits exactly at
the design's `rm` station, and every stage solved by the sequencer over
those designs still carries the single machine mean radius. -/
theorem machine_meanRadius_constant (cfg : MachineConfig) :
    (∀ d ∈ makeStageDesigns cfg, d.meanRadius = machineMeanRadius cfg)
  ∧ (∀ d : StageDesign, (StageSolver.meanTriangle d).radius = d.meanRadius)
  ∧ (∀ inlet target tol,
      ∀ s ∈ (TurbomachinerySequencer.run inlet (makeStageDesigns cfg) target tol).stages,
        s.design.meanRadius = machineMeanRadius cfg) := by
  refine ⟨?_, fun _ => rfl, ?_⟩
  · intro d hd
    simp only [makeStageDesigns, List.mem_map] at hd
    obtain ⟨h, -, rfl⟩ := hd
    rfl
  · intro inlet target tol s hs
    have hmem : s.design ∈ makeStageDesigns cfg :=
      runStages_design_mem (makeStageDesigns cfg) inlet 0 s hs
    simp only [makeStageDesigns, List.mem_map] at hmem
    obtain ⟨h, -, hdes⟩ := hmem
    rw [← hdes]

/-- Modelled from the spec: `DegenerateProfileError` — the airfoil
parameters collapse to an invalid curve; fatal for that station only. -/
inductive DegenerateProfileError where
  | invalidArcWeight
  | nonpositiveChord
deriving DecidableEq

/-- Modelled from the spec: double-circular-arc airfoil parameters —
chord, stagger angle, leading-edge radius, maximum thickness, camber
angle, arc-blend weight, and the per-side sample count of the emitted
polyline. -/
structure AirfoilProfile where
  chord : ℝ
  stagger : ℝ
  leadingEdgeRadius : ℝ
  maxThickness : ℝ
  camber : ℝ
  arcWeight : ℝ
  sampleCount : ℕ

namespace AirfoilProfile

/-- Modelled from the spec: height of a chord-normalized circular arc of
radius `R` through `(0,0)` and `(1,0)`, in graph form — both arcs of the
profile vanish at the leading and trailing edge by construction. -/
def arcY (R t : ℝ) : ℝ :=
  Real.sqrt (R ^ 2 - (t - 1 / 2) ^ 2) - Real.sqrt (R ^ 2 - 1 / 4)

/-- Modelled from the spec: chord-normalized camber-line arc radius from
the camber angle. -/
def camberRadius (p : AirfoilProfile) : ℝ :=
  1 / (2 * Real.sin (p.camber / 2))

/-- Modelled from the spec: suction-side arc radius — the camber radius
tightened by the arc-blend weight share of the maximum thickness. -/
def suctionRadius (p : AirfoilProfile) : ℝ :=
  camberRadius p - p.arcWeight * p.maxThickness

/-- Modelled from the spec: pressure-side arc radius — the camber radius
opened by the complementary arc-blend weight share of the thickness. -/
def pressureRadius (p : AirfoilProfile) : ℝ :=
  camberRadius p + (1 - p.arcWeight) * p.maxThickness

/-- Modelled from the spec: place a chord-normalized point — offset by the
leading-edge radius, scale to the chord and rotate by the stagger angle. -/
def place (p : AirfoilProfile) (q : ℝ × ℝ) : ℝ × ℝ :=
  ((p.chord * q.1 + p.leadingEdgeRadius) * Real.cos p.stagger -
      p.chord * q.2 * Real.sin p.stagger,
    (p.chord * q.1 + p.leadingEdgeRadius) * Real.sin p.stagger +
      p.chord * q.2 * Real.cos p.stagger)

/-- Modelled from the spec: suction-side surface point at chordwise
parameter `t`. -/
def suctionPoint (p : AirfoilProfile) (t : ℝ) : ℝ × ℝ :=
  place p (t, arcY (suctionRadius p) t)

/-- Modelled from the spec: pressure-side surface point at chordwise
parameter `t`. -/
def pressurePoint (p : AirfoilProfile) (t : ℝ) : ℝ × ℝ :=
  place p (t, arcY (pressureRadius p) t)

/-- Modelled from the spec: the polyline of the closed profile — the
suction side sampled leading edge to trailing edge, then the pressure side
sampled back to the leading edge. -/
def curvePoints (p : AirfoilProfile) : List (ℝ × ℝ) :=
  ((List.range (p.sampleCount + 1)).map fun k : ℕ =>
      suctionPoint p ((k : ℝ) / (p.sampleCount : ℝ))) ++
    ((List.range (p.sampleCount + 1)).map fun k : ℕ =>
      pressurePoint p (((p.sampleCount : ℝ) - (k : ℝ)) / (p.sampleCount : ℝ)))

/-- Modelled from the spec: `AirfoilProfile.curve()` — the ordered closed
loop of 2-D points of the blended double-circular-arc section; an
arc-blend weight outside `[0,1]` or a nonpositive chord raises
`DegenerateProfileError`. -/
def curve (p : AirfoilProfile) : Except DegenerateProfileError (List (ℝ × ℝ)) :=
  if p.arcWeight < 0 ∨ 1 < p.arcWeight then .error .invalidArcWeight
  else if p.chord ≤ 0 then .error .nonpositiveChord
  else .ok (curvePoints p)

/-- Both arcs vanish at the leading edge: `arcY R 0 = 0` for every radius. -/
theorem arcY_zero (R : ℝ) : arcY R 0 = 0 := by
  rw [arcY]
  norm_num

/-- The head of a map over an inhabited initial range. -/
theorem head?_map_range {α : Type} (f : ℕ → α) (n : ℕ) :
    ((List.range (n + 1)).map f).head? = some (f 0) := by
  rw [List.range_succ_eq_map]
  simp

/-- The last element of a map over an inhabited initial range. -/
theorem getLast?_map_range {α : Type} (f : ℕ → α) (n : ℕ) :
    ((List.range (n + 1)).map f).getLast? = some (f n) := by
  rw [List.range_succ]
  simp

/-- The curve's first point is its last point: both are the placed leading
edge. -/
theorem curvePoints_closed (p : AirfoilProfile) :
    curvePoints p ≠ [] ∧ (curvePoints p).head? = (curvePoints p).getLast? := by
  refine ⟨by rw [curvePoints]; simp, ?_⟩
  rw [curvePoints]
  rw [List.head?_append_of_ne_nil _ (by simp)]
  rw [List.getLast?_append_of_ne_nil _ (by simp)]
  rw [head?_map_range, getLast?_map_range]
  rw [Nat.cast_zero, zero_div, sub_self, zero_div]
  rw [suctionPoint, pressurePoint, arcY_zero, arcY_zero]

end AirfoilProfile

/-- C7: for every arc-blend weight in `[0,1]` (and a positive chord),
`AirfoilProfile.curve()` returns an ordered nonempty sequence of 2-D
points whose first point equals its last point (a closed loop); for any
weight outside `[0,1]` it raises `DegenerateProfileError`. -/
theorem curve_closed_loop (p : AirfoilProfile) :
    ((0 ≤ p.arcWeight ∧ p.arcWeight ≤ 1) → 0 < p.chord →
      ∃ pts, p.curve = .ok pts ∧ pts ≠ [] ∧ pts.head? = pts.getLast?)
  ∧ ((p.arcWeight < 0 ∨ 1 < p.arcWeight) →
      p.curve = .error .invalidArcWeight) := by
  constructor
  · intro hw hc
    refine ⟨AirfoilProfile.curvePoints p, ?_, (AirfoilProfile.curvePoints_closed p).1,
      (AirfoilProfile.curvePoints_closed p).2⟩
    rw [AirfoilProfile.curve, if_neg (by push_neg; exact ⟨hw.1, hw.2⟩),
      if_neg (not_le.mpr hc)]
  · intro hw
    rw [AirfoilProfile.curve, if_pos hw]

/-- C8: `fromTotalConditions` and `deriveStatic` fail with
`InvalidGasStateError` exactly when pressure ≤ 0, temperature ≤ 0, or the
isentropic relation yields a negative density, and succeed on every other
input; both are pure functions of their arguments, with no state beyond
the instance's own fields. -/
theorem gasState_error_characterization (p T mdot : ℝ) (g : GasProps)
    (s : ThermodynamicState) (v : ℝ) :
    ((∃ e, ThermodynamicState.fromTotalConditions p T mdot g = .error e) ↔
      (p ≤ 0 ∨ T ≤ 0 ∨ p / (g.R * T) < 0))
  ∧ ((∃ s₁, ThermodynamicState.fromTotalConditions p T mdot g = .ok s₁) ↔
      ¬ (p ≤ 0 ∨ T ≤ 0 ∨ p / (g.R * T) < 0))
  ∧ ((∃ e, s.deriveStatic v = .error e) ↔
      (s.totalPressure ≤ 0 ∨ s.staticTemperatureAt v ≤ 0 ∨
        s.staticPressureAt v / (s.gas.R * s.staticTemperatureAt v) < 0))
  ∧ ((∃ s₂, s.deriveStatic v = .ok s₂) ↔
      ¬ (s.totalPressure ≤ 0 ∨ s.staticTemperatureAt v ≤ 0 ∨
        s.staticPressureAt v / (s.gas.R * s.staticTemperatureAt v) < 0)) := by
  refine ⟨?_, ?_, ?_, ?_⟩
  · rw [ThermodynamicState.fromTotalConditions]
    split_ifs with h1 h2 h3 <;> simp [*]
  · rw [ThermodynamicState.fromTotalConditions]
    split_ifs with h1 h2 h3 <;> simp [*]
  · rw [ThermodynamicState.deriveStatic]
    split_ifs with h1 h2 h3 <;> simp [*]
  · rw [ThermodynamicState.deriveStatic]
    split_ifs with h1 h2 h3 <;> simp [*]

/-- C9 (amended): every state the validated constructors
`fromTotalConditions` and `deriveStatic` produce satisfies the invariants —
static pressure at most total pressure, static temperature at most total
temperature, positive density, nonnegative Mach number — and `deriveStatic`
builds a new instance while keeping the originating total conditions, mass
flow and gas unchanged (the model's transitions never mutate their input).
The stage-boundary states minted directly by `StageSolver.outletState` are
excluded: a guard-passing negative-work design defeats the invariant
there. -/
theorem state_invariants (p T mdot : ℝ) (g : GasProps)
    (s s₁ s₂ : ThermodynamicState) (v : ℝ)
    (hR : 0 < g.R) (hR' : 0 < s.gas.R) (hγ : 1 < s.gas.gamma) :
    (ThermodynamicState.fromTotalConditions p T mdot g = .ok s₁ →
      s₁.staticPressure ≤ s₁.totalPressure ∧
      s₁.staticTemperature ≤ s₁.totalTemperature ∧
      0 < s₁.density ∧ 0 ≤ s₁.machNumber)
  ∧ (s.deriveStatic v = .ok s₂ →
      s₂.staticPressure ≤ s₂.totalPressure ∧
      s₂.staticTemperature ≤ s₂.totalTemperature ∧
      0 < s₂.density ∧ 0 ≤ s₂.machNumber ∧
      s₂.totalPressure = s.totalPressure ∧
      s₂.totalTemperature = s.totalTemperature ∧
      s₂.massFlow = s.massFlow ∧ s₂.gas = s.gas) := by
  constructor
  · intro h
    rw [ThermodynamicState.fromTotalConditions] at h
    split_ifs at h with h1 h2 h3
    injection h with h'
    subst h'
    push_neg at h1 h2
    refine ⟨le_refl _, le_refl _, ?_, Real.sqrt_nonneg _⟩
    exact div_pos h1 (mul_pos hR h2)
  · intro h
    rw [ThermodynamicState.deriveStatic] at h
    split_ifs at h with h1 h2 h3
    injection h with h'
    subst h'
    push_neg at h1 h2 h3
    have hcp : 0 < s.gas.cp := by
      rw [GasProps.cp]
      exact div_pos (mul_pos (lt_trans one_pos hγ) hR') (by linarith)
    have hq : 0 ≤ v ^ 2 / (2 * s.gas.cp) := by positivity
    have hTsle : s.staticTemperatureAt v ≤ s.totalTemperature := by
      rw [ThermodynamicState.staticTemperatureAt]
      linarith
    have hTt : 0 < s.totalTemperature := lt_of_lt_of_le h2 hTsle
    have hbase : 0 < s.staticTemperatureAt v / s.totalTemperature := div_pos h2 hTt
    have hexp : 0 ≤ s.gas.isenExp := by
      rw [GasProps.isenExp]
      exact le_of_lt (div_pos (lt_trans one_pos hγ) (by linarith))
    refine ⟨?_, hTsle, ?_, Real.sqrt_nonneg _, rfl, rfl, rfl, rfl⟩
    · rw [ThermodynamicState.staticPressureAt]
      calc s.totalPressure *
            (s.staticTemperatureAt v / s.totalTemperature) ^ s.gas.isenExp
          ≤ s.totalPressure * 1 := by
            refine mul_le_mul_of_nonneg_left ?_ h1.le
            exact Real.rpow_le_one hbase.le (div_le_one_of_le₀ hTsle hTt.le) hexp
        _ = s.totalPressure := mul_one _
    · rw [ThermodynamicState.density]
      simp only
      exact div_pos (mul_pos h1 (Real.rpow_pos_of_pos hbase _)) (mul_pos hR' h2)

/-- C9 witness: the invariants instantiated at the sample gas and sample
state. -/
theorem state_invariants_witness :
    (ThermodynamicState.fromTotalConditions 101325 288 5 sampleAir = .ok sampleState →
      sampleState.staticPressure ≤ sampleState.totalPressure ∧
      sampleState.staticTemperature ≤ sampleState.totalTemperature ∧
      0 < sampleState.density ∧ 0 ≤ sampleState.machNumber)
  ∧ (sampleState.deriveStatic 0 = .ok sampleState →
      sampleState.staticPressure ≤ sampleState.totalPressure ∧
      sampleState.staticTemperature ≤ sampleState.totalTemperature ∧
      0 < sampleState.density ∧ 0 ≤ sampleState.machNumber ∧
      sampleState.totalPressure = sampleState.totalPressure ∧
      sampleState.totalTemperature = sampleState.totalTemperature ∧
      sampleState.massFlow = sampleState.massFlow ∧
      sampleState.gas = sampleState.gas) :=
  state_invariants 101325 288 5 sampleAir sampleState sampleState sampleState 0
    (by norm_num [sampleAir]) (by norm_num [sampleState, sampleAir])
    (by norm_num [sampleState, sampleAir])

/-- Stage design that passes every solver guard while its negative Euler
work input drives the outlet total temperature negative: reaction one,
zero flow coefficient, work coefficient minus two, blade speed 400 m/s at
the mean radius. -/
def negativeWorkDesign : StageDesign :=
  ⟨-2, 0, 1, 1 / 10, 3 / 20, 1 / 5, 8000 / 3, 3⟩

/-- C9 counterexample: at the sample inlet, the negative-work design makes
`StageSolver.solve` succeed, yet the stage-boundary state it mints through
`outletState` has a negative total temperature and zero density — so not
every state produced by every operation satisfies the claimed invariant. -/
theorem state_invariants_counterexample :
    StageSolver.solve sampleState negativeWorkDesign =
      .ok (StageSolver.outletState sampleState negativeWorkDesign,
        StageSolver.triangles negativeWorkDesign)
  ∧ (StageSolver.outletState sampleState negativeWorkDesign).totalTemperature < 0
  ∧ ¬ (0 < (StageSolver.outletState sampleState negativeWorkDesign).density) := by
  have hTt2 : StageSolver.outletTotalTemperature sampleState negativeWorkDesign =
      -61408 / 2009 := by
    norm_num [StageSolver.outletTotalTemperature, StageSolver.bladeSpeed,
      GasProps.cp, negativeWorkDesign, sampleState, sampleAir]
  have hexp : sampleState.gas.isenExp = 7 / 2 := by
    norm_num [GasProps.isenExp, sampleState, sampleAir]
  have hbase : StageSolver.outletTotalTemperature sampleState negativeWorkDesign /
      sampleState.totalTemperature < 0 := by
    rw [hTt2]
    norm_num [sampleState]
  have hcos : Real.cos ((7 / 2 : ℝ) * Real.pi) = 0 := by
    rw [Real.cos_eq_zero_iff]
    exact ⟨3, by ring⟩
  have hpt2 : StageSolver.outletTotalPressure sampleState negativeWorkDesign = 0 := by
    rw [StageSolver.outletTotalPressure, hexp, Real.rpow_def_of_neg hbase, hcos,
      mul_zero, mul_zero]
  refine ⟨?_, ?_, ?_⟩
  · have hradii : StageSolver.radiiValid negativeWorkDesign := by
      simp only [StageSolver.radiiValid]
      norm_num [negativeWorkDesign]
    have hreact : ¬ (negativeWorkDesign.reaction < 0 ∨ 1 < negativeWorkDesign.reaction) := by
      norm_num [negativeWorkDesign]
    have hsound : ¬ (StageSolver.soundSpeedSq sampleState negativeWorkDesign ≤ 0) := by
      norm_num [StageSolver.soundSpeedSq, StageSolver.meanStaticTemperature,
        StageSolver.absoluteSpeedSq, StageSolver.meanAxialVelocity,
        StageSolver.meanTangentialVelocity, StageSolver.bladeSpeed,
        GasProps.cp, negativeWorkDesign, sampleState, sampleAir]
    have hmach : ¬ (StageSolver.soundSpeedSq sampleState negativeWorkDesign ≤
        StageSolver.relativeSpeedSq negativeWorkDesign) := by
      norm_num [StageSolver.soundSpeedSq, StageSolver.meanStaticTemperature,
        StageSolver.absoluteSpeedSq, StageSolver.relativeSpeedSq,
        StageSolver.meanAxialVelocity, StageSolver.meanTangentialVelocity,
        StageSolver.bladeSpeed, GasProps.cp, negativeWorkDesign, sampleState, sampleAir]
    rw [StageSolver.solve, if_pos hradii, if_neg hreact, if_neg hsound, if_neg hmach]
  · simp only [StageSolver.outletState]
    rw [hTt2]
    norm_num
  · rw [ThermodynamicState.density]
    simp only [StageSolver.outletState]
    rw [hpt2, zero_div]
    exact lt_irrefl 0

end Turbodesigner

end
